import Mathlib

/-!
# High-Scale Energy Ingestion Engine — verification development

A shallow embedding of the telemetry ingestion and analytics service:
two HTTP handlers backed by five relations (two append-only history
tables, two single-row-per-device current-status tables, one
vehicle-to-meter mapping table).

The embedding mirrors the source:

* `TelemetryService.ingestVehicle` / `ingestMeter` (telemetry.service.ts):
  parse the caller-supplied timestamp, append one row to the history
  relation, upsert the current-status relation keyed by device id.
* `TelemetryController.ingest` (telemetry.controller.ts): structural
  dispatch — the `meterId`-presence check runs first, then the
  `vehicleId`-presence check, else a client error.
* `AnalyticsService.createMapping` / `getMapping` /
  `getVehiclePerformance` (analytics.service.ts): mapping upsert keyed on
  `vehicleId`; 24-hour windowed aggregates
  (`COALESCE(SUM(...), 0)`, `COALESCE(AVG(...), 0)`) and the
  two-decimal-rounded efficiency ratio guarded by `totalAc > 0`.

Database state is modelled as lists of rows; the store's
`INSERT ... ON CONFLICT (key) DO UPDATE` is the `upsertBy` operation;
JavaScript numbers are modelled as `ℚ` and `Number.toFixed(2)` as
`round2`; timestamps are epoch milliseconds (`ℤ`). Read-only handlers
(`getMapping`, `getVehiclePerformance`) take the state and return no new
state, so by construction they touch no relation.
-/

namespace EnergyIngestion

/-! ## Rounding: the model of `Number(x.toFixed(2))` -/

/-- Rounding to two decimal places, the model of the source's
`Number(x.toFixed(2))` on a JavaScript number. -/
def round2 (q : ℚ) : ℚ := (round (q * 100) : ℤ) / 100

/-! ## Timestamps

Modelled from the spec: the DTO validation layer
(`vehicle-telemetry.dto.ts`, `meter-telemetry.dto.ts` and the bootstrap
installing the validation pipe) is not under `src/`; per §4.1 the handler
must "parse the supplied timestamp into a timezone-aware instant; fail
with a validation error if malformed". We model an instant as epoch
milliseconds and parse the ISO-8601 shape `YYYY-MM-DDTHH:MM:SSZ`. -/

/-- Splits a character list on a separator, keeping empty chunks. -/
def splitOnChar (sep : Char) : List Char → List (List Char)
  | [] => [[]]
  | c :: cs =>
      match splitOnChar sep cs with
      | [] => if c == sep then [[], [c]] else [[c]]
      | r :: rs => if c == sep then [] :: r :: rs else (c :: r) :: rs

/-- Reads a nonempty all-digit character list as a natural number. -/
def digitsToNat? (cs : List Char) : Option Nat :=
  if cs.isEmpty then none
  else cs.foldlM (fun acc c => if c.isDigit then some (acc * 10 + (c.toNat - 48)) else none) 0

/-- Days from the Unix epoch to a civil date (proleptic Gregorian),
the standard era/year-of-era computation, in `Nat` arithmetic shifted so
the year starts in March. -/
def daysSinceEpoch (y m d : Nat) : ℤ :=
  let y2 := if m ≤ 2 then y - 1 else y
  let m2 := if m ≤ 2 then m + 9 else m - 3
  let era := y2 / 400
  let yoe := y2 % 400
  let doy := (153 * m2 + 2) / 5 + d - 1
  let doe := yoe * 365 + yoe / 4 - yoe / 100 + doy
  (era * 146097 + doe : ℤ) - 719468

/-- Modelled from the spec: parse an ISO-8601 timestamp string
`YYYY-MM-DDTHH:MM:SSZ` into a timezone-aware instant (epoch
milliseconds); `none` when malformed. Stands in for the missing DTO
timestamp validation plus the service's `new Date(data.timestamp)`. -/
def parseTimestamp (s : String) : Option ℤ :=
  match splitOnChar 'T' s.data with
  | [dpart, tpart] =>
    match splitOnChar '-' dpart, splitOnChar ':' tpart with
    | [ys, mos, ds], [hs, mis, rest] =>
      match rest.reverse with
      | 'Z' :: secRev => do
          let y ← digitsToNat? ys
          let mo ← digitsToNat? mos
          let d ← digitsToNat? ds
          let h ← digitsToNat? hs
          let mi ← digitsToNat? mis
          let sec ← digitsToNat? secRev.reverse
          if 1 ≤ y ∧ 1 ≤ mo ∧ mo ≤ 12 ∧ 1 ≤ d ∧ d ≤ 31 ∧ h ≤ 23 ∧ mi ≤ 59 ∧ sec ≤ 59 then
            some ((daysSinceEpoch y mo d * 86400 + (h * 3600 + mi * 60 + sec : Nat)) * 1000)
          else none
      | _ => none
    | _, _ => none
  | _ => none

/-! ## Entities (database/entities/*.entity.ts) -/

/-- Row of `vehicle_telemetry_history` (append-only). -/
structure VehicleTelemetryHistory where
  vehicleId : String
  soc : ℚ
  kwhDeliveredDc : ℚ
  batteryTemp : ℚ
  timestamp : ℤ
deriving DecidableEq

/-- Row of `meter_telemetry_history` (append-only). -/
structure MeterTelemetryHistory where
  meterId : String
  kwhConsumedAc : ℚ
  voltage : ℚ
  timestamp : ℤ
deriving DecidableEq

/-- Row of `current_vehicle_status`, primary key `vehicleId`. -/
structure CurrentVehicleStatus where
  vehicleId : String
  soc : ℚ
  lastKwhDeliveredDc : ℚ
  batteryTemp : ℚ
  lastUpdatedAt : ℤ
deriving DecidableEq

/-- Row of `current_meter_status`, primary key `meterId`. -/
structure CurrentMeterStatus where
  meterId : String
  lastKwhConsumedAc : ℚ
  voltage : ℚ
  lastUpdatedAt : ℤ
deriving DecidableEq

/-- Row of the vehicle-meter mapping relation, primary key `vehicleId`. -/
structure VehicleMeterMapping where
  vehicleId : String
  meterId : String
deriving DecidableEq

/-- The whole relational state: the five tables. -/
structure DBState where
  vehicleHistory : List VehicleTelemetryHistory
  meterHistory : List MeterTelemetryHistory
  currentVehicle : List CurrentVehicleStatus
  currentMeter : List CurrentMeterStatus
  mappings : List VehicleMeterMapping
deriving DecidableEq

/-- The empty database. -/
def DBState.empty : DBState := ⟨[], [], [], [], []⟩

/-- The store's `upsert` with `conflictPaths` on `key`: overwrite the
row(s) whose key matches the incoming row's key, else append it. -/
def upsertBy {α : Type} (key : α → String) (rows : List α) (row : α) : List α :=
  if rows.any (fun r => key r == key row) then
    rows.map (fun r => if key r == key row then row else r)
  else rows ++ [row]

/-! ## DTOs and payloads -/

/-- Shape of a validated vehicle telemetry body (vehicle-telemetry.dto.ts). -/
structure VehicleTelemetryDto where
  vehicleId : String
  soc : ℚ
  kwhDeliveredDc : ℚ
  batteryTemp : ℚ
  timestamp : String
deriving DecidableEq

/-- Shape of a validated meter telemetry body (meter-telemetry.dto.ts). -/
structure MeterTelemetryDto where
  meterId : String
  kwhConsumedAc : ℚ
  voltage : ℚ
  timestamp : String
deriving DecidableEq

/-- A raw POST /v1/telemetry body before classification: every field
optional, since the controller dispatches on which identifying field is
present (`'meterId' in payload`, `'vehicleId' in payload`). -/
structure TelemetryPayload where
  vehicleId : Option String
  meterId : Option String
  soc : Option ℚ
  kwhDeliveredDc : Option ℚ
  batteryTemp : Option ℚ
  kwhConsumedAc : Option ℚ
  voltage : Option ℚ
  timestamp : Option String
deriving DecidableEq

/-- Modelled from the spec: the DTO layer (not under `src/`) requires the
meter fields; the controller's `payload as MeterTelemetryDto` cast then
reads them. `none` when a required meter field is missing. -/
def toMeterDto (p : TelemetryPayload) : Option MeterTelemetryDto := do
  let meterId ← p.meterId
  let kwhConsumedAc ← p.kwhConsumedAc
  let voltage ← p.voltage
  let timestamp ← p.timestamp
  pure ⟨meterId, kwhConsumedAc, voltage, timestamp⟩

/-- Modelled from the spec: the DTO layer (not under `src/`) requires the
vehicle fields; the controller's `payload as VehicleTelemetryDto` cast
then reads them. `none` when a required vehicle field is missing. -/
def toVehicleDto (p : TelemetryPayload) : Option VehicleTelemetryDto := do
  let vehicleId ← p.vehicleId
  let soc ← p.soc
  let kwhDeliveredDc ← p.kwhDeliveredDc
  let batteryTemp ← p.batteryTemp
  let timestamp ← p.timestamp
  pure ⟨vehicleId, soc, kwhDeliveredDc, batteryTemp, timestamp⟩

/-! ## Errors -/

/-- Client-side failures of the ingestion path (HTTP 400). -/
inductive IngestError where
  | validationError (msg : String)
  | unclassifiedPayload (msg : String)
deriving DecidableEq

/-- Failures of the analytics path. -/
inductive AnalyticsError where
  | notFound (msg : String)
deriving DecidableEq

deriving instance DecidableEq for Except

/-! ## TelemetryService (telemetry.service.ts) -/

/-- `TelemetryService.ingestVehicle`: parse the timestamp, append one row
to `vehicle_telemetry_history`, upsert `current_vehicle_status` keyed by
`vehicleId`. A thrown error leaves the state unchanged. -/
def ingestVehicle (db : DBState) (data : VehicleTelemetryDto) :
    DBState × Except IngestError String :=
  match parseTimestamp data.timestamp with
  | none => (db, .error (.validationError "timestamp must be a valid ISO 8601 date string"))
  | some ts =>
      let histRow : VehicleTelemetryHistory :=
        ⟨data.vehicleId, data.soc, data.kwhDeliveredDc, data.batteryTemp, ts⟩
      let curRow : CurrentVehicleStatus :=
        ⟨data.vehicleId, data.soc, data.kwhDeliveredDc, data.batteryTemp, ts⟩
      ({ db with
          vehicleHistory := db.vehicleHistory ++ [histRow]
          currentVehicle := upsertBy CurrentVehicleStatus.vehicleId db.currentVehicle curRow }
       , .ok "vehicle telemetry ingested")

/-- `TelemetryService.ingestMeter`: parse the timestamp, append one row
to `meter_telemetry_history`, upsert `current_meter_status` keyed by
`meterId`. A thrown error leaves the state unchanged. -/
def ingestMeter (db : DBState) (data : MeterTelemetryDto) :
    DBState × Except IngestError String :=
  match parseTimestamp data.timestamp with
  | none => (db, .error (.validationError "timestamp must be a valid ISO 8601 date string"))
  | some ts =>
      let histRow : MeterTelemetryHistory :=
        ⟨data.meterId, data.kwhConsumedAc, data.voltage, ts⟩
      let curRow : CurrentMeterStatus :=
        ⟨data.meterId, data.kwhConsumedAc, data.voltage, ts⟩
      ({ db with
          meterHistory := db.meterHistory ++ [histRow]
          currentMeter := upsertBy CurrentMeterStatus.meterId db.currentMeter curRow }
       , .ok "meter telemetry ingested")

/-- `TelemetryController.ingest`: structural dispatch. The source checks
`'meterId' in payload` first, then `'vehicleId' in payload`, and
otherwise throws `BadRequestException`. -/
def ingest (db : DBState) (p : TelemetryPayload) :
    DBState × Except IngestError String :=
  if p.meterId.isSome then
    match toMeterDto p with
    | some dto => ingestMeter db dto
    | none => (db, .error (.validationError "missing required meter telemetry field"))
  else if p.vehicleId.isSome then
    match toVehicleDto p with
    | some dto => ingestVehicle db dto
    | none => (db, .error (.validationError "missing required vehicle telemetry field"))
  else
    (db, .error (.unclassifiedPayload "Unknown telemetry type. Must include either meterId or vehicleId"))

/-! ## AnalyticsService (analytics.service.ts) -/

/-- `AnalyticsService.createMapping`: upsert the mapping row keyed by
`vehicleId` (`conflictPaths: [vehicleId]`), returning both identifiers. -/
def createMapping (db : DBState) (vehicleId meterId : String) :
    DBState × (String × String × String) :=
  ({ db with mappings := upsertBy VehicleMeterMapping.vehicleId db.mappings ⟨vehicleId, meterId⟩ }
   , (vehicleId, meterId, "Vehicle-meter mapping created/updated successfully"))

/-- `AnalyticsService.getMapping`: `findOne` on `vehicleId`, throwing
`NotFoundException` when absent. -/
def getMapping (db : DBState) (vehicleId : String) :
    Except AnalyticsError VehicleMeterMapping :=
  match db.mappings.find? (fun r => r.vehicleId == vehicleId) with
  | none => .error (.notFound ("No meter mapped to vehicle " ++ vehicleId))
  | some mapping => .ok mapping

/-- `since = Date.now() - 24 * 60 * 60 * 1000`, in epoch milliseconds. -/
def sinceOf (now : ℤ) : ℤ := now - 24 * 60 * 60 * 1000

/-- The vehicle-history rows the aggregate query ranges over:
`v.vehicleId = :vehicleId AND v.timestamp >= :since`. -/
def windowVehicleRows (db : DBState) (vehicleId : String) (since : ℤ) :
    List VehicleTelemetryHistory :=
  db.vehicleHistory.filter (fun r => r.vehicleId == vehicleId && decide (since ≤ r.timestamp))

/-- The meter-history rows the aggregate query ranges over:
`m.meterId = :meterId AND m.timestamp >= :since`. -/
def windowMeterRows (db : DBState) (meterId : String) (since : ℤ) :
    List MeterTelemetryHistory :=
  db.meterHistory.filter (fun r => r.meterId == meterId && decide (since ≤ r.timestamp))

/-- `COALESCE(SUM(v.kwhDeliveredDc), 0)` over the window: SQL `SUM` of an
empty window is `NULL`, coalesced to 0, which is the list sum. -/
def dcDeliveredSum (db : DBState) (vehicleId : String) (since : ℤ) : ℚ :=
  ((windowVehicleRows db vehicleId since).map VehicleTelemetryHistory.kwhDeliveredDc).sum

/-- `COALESCE(AVG(v.batteryTemp), 0)` over the window: 0 when the window
is empty, otherwise the sum divided by the row count. -/
def avgBatteryTemp (db : DBState) (vehicleId : String) (since : ℤ) : ℚ :=
  let rows := windowVehicleRows db vehicleId since
  if rows.isEmpty then 0
  else ((rows.map VehicleTelemetryHistory.batteryTemp).sum) / rows.length

/-- `COALESCE(SUM(m.kwhConsumedAc), 0)` over the window. -/
def acConsumedSum (db : DBState) (meterId : String) (since : ℤ) : ℚ :=
  ((windowMeterRows db meterId since).map MeterTelemetryHistory.kwhConsumedAc).sum

/-- Response shape of GET /v1/analytics/performance/:vehicleId. -/
structure Performance where
  vehicleId : String
  period : String
  acConsumed : ℚ
  dcDelivered : ℚ
  efficiencyRatio : ℚ
  avgTemperature : ℚ
deriving DecidableEq

/-- One aggregate range query issued against a history relation. -/
inductive HistoryQuery where
  | vehicleAgg (vehicleId : String) (since : ℤ)
  | meterAgg (meterId : String) (since : ℤ)
deriving DecidableEq

/-- `AnalyticsService.getVehiclePerformance`, instrumented with the list
of history aggregate queries it issues: resolve the mapping (throwing
`NotFoundException` when absent, before any history query), run the two
windowed aggregates, and assemble the rounded response; the efficiency
ratio divides only when `totalAc > 0` and reports 0 otherwise. -/
def getVehiclePerformanceT (db : DBState) (now : ℤ) (vehicleId : String) :
    Except AnalyticsError Performance × List HistoryQuery :=
  match db.mappings.find? (fun r => r.vehicleId == vehicleId) with
  | none => (.error (.notFound ("No meter mapped to vehicle " ++ vehicleId)), [])
  | some mapping =>
      let totalDc := dcDeliveredSum db vehicleId (sinceOf now)
      let totalAc := acConsumedSum db mapping.meterId (sinceOf now)
      (.ok { vehicleId := vehicleId
             period := "last_24_hours"
             acConsumed := round2 totalAc
             dcDelivered := round2 totalDc
             efficiencyRatio := if 0 < totalAc then round2 (totalDc / totalAc) else 0
             avgTemperature := round2 (avgBatteryTemp db vehicleId (sinceOf now)) }
       , [HistoryQuery.vehicleAgg vehicleId (sinceOf now),
          HistoryQuery.meterAgg mapping.meterId (sinceOf now)])

/-- The handler's response alone (the query trace projected away). -/
def getVehiclePerformance (db : DBState) (now : ℤ) (vehicleId : String) :
    Except AnalyticsError Performance :=
  (getVehiclePerformanceT db now vehicleId).1

/-! ## Concrete fixtures for witnesses and counterexamples -/

/-- A payload carrying both identifying fields and all kind-specific
numeric fields. -/
def payloadBoth : TelemetryPayload :=
  ⟨some "EV-1", some "M-1", some 50, some 10, some 25, some 12, some 230,
   some "2026-01-01T00:00:00Z"⟩

/-- A payload carrying neither identifying field. -/
def payloadNeither : TelemetryPayload :=
  ⟨none, none, none, none, none, none, none, none⟩

/-- A well-formed meter telemetry payload. -/
def payloadMeter : TelemetryPayload :=
  ⟨none, some "M-8", none, none, none, some 5, some 230,
   some "2026-01-01T00:00:00Z"⟩

/-- A well-formed vehicle telemetry body. -/
def vehicleDtoEx : VehicleTelemetryDto :=
  ⟨"EV-1", 50, 10, 25, "2026-01-01T00:00:00Z"⟩

/-- A database with one mapped vehicle, one vehicle reading of 86 kWh DC
and one meter reading of 100 kWh AC, both at the epoch (inside the
24-hour window anchored at `now = 86400000`, outside the one anchored at
`now = 172800000`). -/
def dbRatio : DBState :=
  ⟨[⟨"EV-1", 50, 86, 25, 0⟩], [⟨"M-1", 100, 230, 0⟩], [], [], [⟨"EV-1", "M-1"⟩]⟩

/-- A database whose mapped meter has a negative AC consumption reading
inside the 24-hour window anchored at `now = 86400000`. -/
def dbNegativeAc : DBState :=
  ⟨[⟨"EV-1", 50, 86, 25, 0⟩], [⟨"M-1", -5, 230, 0⟩], [], [], [⟨"EV-1", "M-1"⟩]⟩

/-! ## Helper lemmas about `upsertBy` -/

theorem find?_map_overwrite {α : Type} (key : α → String) (row : α) :
    ∀ rows : List α, rows.any (fun r => key r == key row) = true →
      (rows.map (fun r => if key r == key row then row else r)).find?
        (fun r => key r == key row) = some row := by
  intro rows h
  induction rows with
  | nil => simp at h
  | cons a as ih =>
      cases hka : (key a == key row) with
      | true =>
          simp only [List.map_cons, hka, if_true]
          exact List.find?_cons_of_pos _ (by simp)
      | false =>
          simp only [List.map_cons, hka, if_false, Bool.false_eq_true]
          rw [List.find?_cons_of_neg _ (by simp [hka])]
          apply ih
          simpa [List.any_cons, hka] using h

theorem find?_append_self {α : Type} (key : α → String) (row : α) :
    ∀ rows : List α, rows.any (fun r => key r == key row) = false →
      (rows ++ [row]).find? (fun r => key r == key row) = some row := by
  intro rows h
  induction rows with
  | nil => simp [List.find?_cons_of_pos]
  | cons a as ih =>
      simp only [List.any_cons, Bool.or_eq_false_iff] at h
      rw [List.cons_append, List.find?_cons_of_neg _ (by simp [h.1])]
      exact ih h.2

/-- After an upsert keyed on `key`, looking the incoming row's key up
finds exactly the incoming row. -/
theorem find?_upsertBy {α : Type} (key : α → String) (rows : List α) (row : α) :
    (upsertBy key rows row).find? (fun r => key r == key row) = some row := by
  unfold upsertBy
  cases h : rows.any (fun r => key r == key row) with
  | true => simpa [h] using find?_map_overwrite key row rows h
  | false => simpa [h] using find?_append_self key row rows h

/-! ## Claim C5 — mapping upsert is an idempotent overwrite -/

/-- Claim C5: after `createOrUpdateMapping(v, m)`, `getMapping(v)`
returns the pair `{vehicleId: v, meterId: m}`; after a subsequent
`createOrUpdateMapping(v, m2)`, `getMapping(v)` returns `m2` — the
mapping upsert keyed on `vehicleId` unconditionally overwrites the
stored `meterId`. -/
theorem c5_mapping_upsert_overwrite (db : DBState) (v m m2 : String) :
    getMapping (createMapping db v m).1 v = .ok ⟨v, m⟩ ∧
    getMapping (createMapping (createMapping db v m).1 v m2).1 v = .ok ⟨v, m2⟩ := by
  have h1 : (createMapping db v m).1.mappings.find? (fun r => r.vehicleId == v)
      = some ⟨v, m⟩ :=
    find?_upsertBy VehicleMeterMapping.vehicleId db.mappings ⟨v, m⟩
  have h2 : (createMapping (createMapping db v m).1 v m2).1.mappings.find?
      (fun r => r.vehicleId == v) = some ⟨v, m2⟩ :=
    find?_upsertBy VehicleMeterMapping.vehicleId (createMapping db v m).1.mappings ⟨v, m2⟩
  exact ⟨by simp only [getMapping, h1], by simp only [getMapping, h2]⟩

/-! ## Claim C6 — analytics on an unmapped vehicle -/

/-- Claim C6: for every `vehicleId` with no mapping row,
`getVehiclePerformance` fails with a not-found error naming that
vehicle, and issues no history aggregate queries — the mapping lookup
happens first and its absence aborts the call. -/
theorem c6_unmapped_vehicle_not_found (db : DBState) (now : ℤ) (v : String)
    (hm : db.mappings.find? (fun r => r.vehicleId == v) = none) :
    getVehiclePerformanceT db now v
      = (.error (.notFound ("No meter mapped to vehicle " ++ v)), []) := by
  simp [getVehiclePerformanceT, hm]

/-- Witness for C6 at the empty database. -/
theorem c6_unmapped_vehicle_not_found_witness :
    getVehiclePerformanceT DBState.empty 0 "EV-9"
      = (.error (.notFound "No meter mapped to vehicle EV-9"), []) :=
  c6_unmapped_vehicle_not_found DBState.empty 0 "EV-9" (by decide)

/-! ## Claim C7 — unclassifiable payloads are rejected without writes -/

/-- Claim C7: for every telemetry payload containing neither a vehicle
identifier nor a meter identifier, ingestion fails with a client error
signaling an unknown telemetry type, and the returned state is the
input state — no write to any history or current-status relation. -/
theorem c7_neither_id_rejected (db : DBState) (p : TelemetryPayload)
    (hv : p.vehicleId = none) (hm : p.meterId = none) :
    ingest db p = (db, .error (.unclassifiedPayload
      "Unknown telemetry type. Must include either meterId or vehicleId")) := by
  simp [ingest, hv, hm]

/-- Witness for C7 at a concrete field-free payload. -/
theorem c7_neither_id_rejected_witness :
    ingest DBState.empty payloadNeither = (DBState.empty, .error (.unclassifiedPayload
      "Unknown telemetry type. Must include either meterId or vehicleId")) :=
  c7_neither_id_rejected DBState.empty payloadNeither (by decide) (by decide)

/-! ## Claim C1 — classification precedence of the dispatch

The source checks `'meterId' in payload` before `'vehicleId' in
payload`, so a payload carrying both identifiers is routed as meter
telemetry, not vehicle telemetry. -/

/-- Claim C1 counterexample: `payloadBoth` contains both a vehicle
identifier and a meter identifier, yet `ingest` acknowledges it as meter
telemetry and appends nothing to the vehicle history — the claim that
the vehicle-identifier check takes precedence is false on the code. -/
theorem c1_both_ids_routed_as_meter :
    payloadBoth.vehicleId.isSome = true ∧ payloadBoth.meterId.isSome = true ∧
    (ingest DBState.empty payloadBoth).2 = .ok "meter telemetry ingested" ∧
    (ingest DBState.empty payloadBoth).1.vehicleHistory = [] ∧
    (ingest DBState.empty payloadBoth).1.meterHistory ≠ [] := by decide

/-- Claim C1 as amended: for every telemetry payload whose meter fields
are present — in particular one also carrying a vehicle identifier —
`ingest` delegates to `ingestMeter`: the meter-identifier check takes
precedence over the vehicle-identifier check. -/
theorem c1_meter_check_takes_precedence (db : DBState) (p : TelemetryPayload)
    (dto : MeterTelemetryDto) (_hv : p.vehicleId.isSome = true)
    (hm : toMeterDto p = some dto) :
    ingest db p = ingestMeter db dto := by
  have hms : p.meterId.isSome = true := by
    cases hpm : p.meterId with
    | none => rw [toMeterDto, hpm] at hm; exact absurd hm (by simp)
    | some x => simp [hpm]
  simp [ingest, hms, hm]

/-- Witness for the amended C1 at the both-identifier payload. -/
theorem c1_meter_check_takes_precedence_witness :
    ingest DBState.empty payloadBoth
      = ingestMeter DBState.empty ⟨"M-1", 12, 230, "2026-01-01T00:00:00Z"⟩ :=
  c1_meter_check_takes_precedence DBState.empty payloadBoth
    ⟨"M-1", 12, 230, "2026-01-01T00:00:00Z"⟩ (by decide) (by decide)

/-! ## Claim C2 — vehicle ingestion updates current status last-write-wins -/

/-- Claim C2: for every valid vehicle telemetry payload, after ingestion
succeeds the current-vehicle-status row keyed by that `vehicleId`
exactly equals the payload's fields (`soc`, `kwhDeliveredDc` as
`lastKwhDeliveredDc`, `batteryTemp`, the parsed timestamp as
`lastUpdatedAt`). The statement quantifies over every prior database —
including one whose stored row has a newer `lastUpdatedAt` — so the
upsert inserts when absent and otherwise overwrites all non-key fields
unconditionally, with no guard comparing event timestamps. -/
theorem c2_current_status_last_write_wins (db : DBState)
    (data : VehicleTelemetryDto) (ts : ℤ)
    (h : parseTimestamp data.timestamp = some ts) :
    (ingestVehicle db data).1.currentVehicle.find?
        (fun r => r.vehicleId == data.vehicleId)
      = some ⟨data.vehicleId, data.soc, data.kwhDeliveredDc, data.batteryTemp, ts⟩ ∧
    (ingestVehicle db data).2 = .ok "vehicle telemetry ingested" := by
  refine ⟨?_, by simp [ingestVehicle, h]⟩
  simp only [ingestVehicle, h]
  exact find?_upsertBy CurrentVehicleStatus.vehicleId db.currentVehicle
    ⟨data.vehicleId, data.soc, data.kwhDeliveredDc, data.batteryTemp, ts⟩

/-- Witness for C2: ingesting into a database whose stored current
status for the same vehicle carries a newer timestamp still overwrites
it with the payload's (older) fields. -/
theorem c2_current_status_last_write_wins_witness :
    ((ingestVehicle ⟨[], [], [⟨"EV-1", 99, 99, 99, 1893456000000⟩], [], []⟩
        vehicleDtoEx).1.currentVehicle.find? (fun r => r.vehicleId == "EV-1")
      = some ⟨"EV-1", 50, 10, 25, 1767225600000⟩) ∧
    (ingestVehicle ⟨[], [], [⟨"EV-1", 99, 99, 99, 1893456000000⟩], [], []⟩
        vehicleDtoEx).2 = .ok "vehicle telemetry ingested" :=
  c2_current_status_last_write_wins ⟨[], [], [⟨"EV-1", 99, 99, 99, 1893456000000⟩], [], []⟩
    vehicleDtoEx 1767225600000 (by decide)

/-! ## Claim C3 — efficiency ratio formula and zero guard -/

/-- Claim C3: for every mapped vehicle, the efficiency ratio in the
`getVehiclePerformance` response equals the 24-hour sum of DC energy
delivered divided by the 24-hour sum of AC energy consumed, rounded to
two decimal places, and when the AC sum is zero the ratio is reported as
zero rather than an error or infinity. The witness instantiates
dcDelivered = 86 and acConsumed = 100, yielding 0.86. -/
theorem c3_efficiency_ratio_formula (db : DBState) (now : ℤ) (v : String)
    (mp : VehicleMeterMapping)
    (hm : db.mappings.find? (fun r => r.vehicleId == v) = some mp) :
    ∃ perf, getVehiclePerformance db now v = .ok perf ∧
      (0 < acConsumedSum db mp.meterId (sinceOf now) →
        perf.efficiencyRatio = round2 (dcDeliveredSum db v (sinceOf now)
          / acConsumedSum db mp.meterId (sinceOf now))) ∧
      (acConsumedSum db mp.meterId (sinceOf now) = 0 →
        perf.efficiencyRatio = 0) := by
  refine ⟨{ vehicleId := v, period := "last_24_hours",
            acConsumed := round2 (acConsumedSum db mp.meterId (sinceOf now)),
            dcDelivered := round2 (dcDeliveredSum db v (sinceOf now)),
            efficiencyRatio := if 0 < acConsumedSum db mp.meterId (sinceOf now)
              then round2 (dcDeliveredSum db v (sinceOf now)
                / acConsumedSum db mp.meterId (sinceOf now))
              else 0,
            avgTemperature := round2 (avgBatteryTemp db v (sinceOf now)) }, ?_, ?_, ?_⟩
  · simp [getVehiclePerformance, getVehiclePerformanceT, hm]
  · intro hpos
    simp [if_pos hpos]
  · intro h0
    simp [h0]

/-- Witness for C3: with an 86 kWh DC window sum against a 100 kWh AC
window sum the reported ratio is 0.86. -/
theorem c3_efficiency_ratio_formula_witness :
    Except.map Performance.efficiencyRatio (getVehiclePerformance dbRatio 86400000 "EV-1")
      = .ok (86 / 100) := by
  obtain ⟨perf, hok, hpos, _⟩ :=
    c3_efficiency_ratio_formula dbRatio 86400000 "EV-1" ⟨"EV-1", "M-1"⟩ (by decide)
  rw [hok, Except.map,
    hpos (by norm_num [acConsumedSum, windowMeterRows, dbRatio, sinceOf])]
  norm_num [round2, dcDeliveredSum, acConsumedSum, windowVehicleRows,
    windowMeterRows, dbRatio, sinceOf]

/-! ## Claim C10 — the division guard tests strict positivity -/

/-- Claim C10: the efficiency-ratio guard in `getVehiclePerformance`
tests strict positivity, not mere non-zeroness: whenever the 24-hour AC
consumption sum is less than or equal to zero (including any negative
sum) the ratio is reported as 0, and the division is performed only when
the AC sum is strictly positive. -/
theorem c10_ratio_guard_strict_positivity (db : DBState) (now : ℤ) (v : String)
    (mp : VehicleMeterMapping)
    (hm : db.mappings.find? (fun r => r.vehicleId == v) = some mp) :
    ∃ perf, getVehiclePerformance db now v = .ok perf ∧
      (acConsumedSum db mp.meterId (sinceOf now) ≤ 0 →
        perf.efficiencyRatio = 0) ∧
      (0 < acConsumedSum db mp.meterId (sinceOf now) →
        perf.efficiencyRatio = round2 (dcDeliveredSum db v (sinceOf now)
          / acConsumedSum db mp.meterId (sinceOf now))) := by
  refine ⟨{ vehicleId := v, period := "last_24_hours",
            acConsumed := round2 (acConsumedSum db mp.meterId (sinceOf now)),
            dcDelivered := round2 (dcDeliveredSum db v (sinceOf now)),
            efficiencyRatio := if 0 < acConsumedSum db mp.meterId (sinceOf now)
              then round2 (dcDeliveredSum db v (sinceOf now)
                / acConsumedSum db mp.meterId (sinceOf now))
              else 0,
            avgTemperature := round2 (avgBatteryTemp db v (sinceOf now)) }, ?_, ?_, ?_⟩
  · simp [getVehiclePerformance, getVehiclePerformanceT, hm]
  · intro hle
    simp [if_neg (not_lt.mpr hle)]
  · intro hpos
    simp [if_pos hpos]

/-- Witness for C10: a mapped meter whose only window reading is −5 kWh
AC yields a reported ratio of 0, with no division. -/
theorem c10_ratio_guard_strict_positivity_witness :
    Except.map Performance.efficiencyRatio (getVehiclePerformance dbNegativeAc 86400000 "EV-1")
      = .ok 0 := by
  obtain ⟨perf, hok, hle, _⟩ :=
    c10_ratio_guard_strict_positivity dbNegativeAc 86400000 "EV-1" ⟨"EV-1", "M-1"⟩ (by decide)
  rw [hok, Except.map,
    hle (by norm_num [acConsumedSum, windowMeterRows, dbNegativeAc, sinceOf])]

/-! ## Claim C4 — empty 24-hour windows aggregate to zeros -/

/-- Claim C4: for every mapped vehicle whose vehicle history and mapped
meter history contain no rows inside the last-24-hours window,
`getVehiclePerformance` returns acConsumed = 0, dcDelivered = 0,
efficiencyRatio = 0 and avgTemperature = 0 — absence of matching rows
yields zero for each aggregate sum and average. -/
theorem c4_empty_window_all_zeros (db : DBState) (now : ℤ) (v : String)
    (mp : VehicleMeterMapping)
    (hm : db.mappings.find? (fun r => r.vehicleId == v) = some mp)
    (hvh : ∀ r ∈ db.vehicleHistory, r.vehicleId = v → r.timestamp < sinceOf now)
    (hmh : ∀ r ∈ db.meterHistory, r.meterId = mp.meterId → r.timestamp < sinceOf now) :
    getVehiclePerformance db now v = .ok ⟨v, "last_24_hours", 0, 0, 0, 0⟩ := by
  have hw1 : windowVehicleRows db v (sinceOf now) = [] := by
    rw [windowVehicleRows, List.filter_eq_nil_iff]
    intro r hr
    simp only [Bool.and_eq_true, beq_iff_eq, decide_eq_true_eq, not_and, not_le]
    intro h1
    exact hvh r hr h1
  have hw2 : windowMeterRows db mp.meterId (sinceOf now) = [] := by
    rw [windowMeterRows, List.filter_eq_nil_iff]
    intro r hr
    simp only [Bool.and_eq_true, beq_iff_eq, decide_eq_true_eq, not_and, not_le]
    intro h1
    exact hmh r hr h1
  have hdc : dcDeliveredSum db v (sinceOf now) = 0 := by
    simp [dcDeliveredSum, hw1]
  have hac : acConsumedSum db mp.meterId (sinceOf now) = 0 := by
    simp [acConsumedSum, hw2]
  have havg : avgBatteryTemp db v (sinceOf now) = 0 := by
    simp [avgBatteryTemp, hw1]
  have hr0 : round2 0 = 0 := by
    simp [round2]
  simp [getVehiclePerformance, getVehiclePerformanceT, hm, hdc, hac, havg, hr0]

/-- Witness for C4: `dbRatio` holds only epoch-time readings, all older
than the window anchored at `now = 172800000`, so every aggregate is
reported as zero. -/
theorem c4_empty_window_all_zeros_witness :
    getVehiclePerformance dbRatio 172800000 "EV-1"
      = .ok ⟨"EV-1", "last_24_hours", 0, 0, 0, 0⟩ :=
  c4_empty_window_all_zeros dbRatio 172800000 "EV-1" ⟨"EV-1", "M-1"⟩
    (by decide) (by decide) (by decide)

/-! ## Claim C8 — history relations are append-only -/

/-- Claim C8: every ingestion extends the history relations (existing
rows are preserved as a prefix of the new relation, never updated or
deleted), every successful ingestion adds exactly one history row in
total (to the corresponding relation, the other staying unchanged), and
the mapping write touches no history relation. The read-only handlers
(`getMapping`, `getVehiclePerformanceT`) return no state at all, so no
other operation can modify a history row. -/
theorem c8_history_append_only (db : DBState) (p : TelemetryPayload) (v m : String) :
    (∃ newV, (ingest db p).1.vehicleHistory = db.vehicleHistory ++ newV) ∧
    (∃ newM, (ingest db p).1.meterHistory = db.meterHistory ++ newM) ∧
    (∀ ack, (ingest db p).2 = .ok ack →
      (ingest db p).1.vehicleHistory.length + (ingest db p).1.meterHistory.length
        = db.vehicleHistory.length + db.meterHistory.length + 1) ∧
    (createMapping db v m).1.vehicleHistory = db.vehicleHistory ∧
    (createMapping db v m).1.meterHistory = db.meterHistory := by
  have key :
      ((ingest db p).1.vehicleHistory = db.vehicleHistory ∧
       (ingest db p).1.meterHistory = db.meterHistory ∧
       ∀ ack, (ingest db p).2 ≠ .ok ack) ∨
      ((ingest db p).1.vehicleHistory = db.vehicleHistory ∧
       ∃ r, (ingest db p).1.meterHistory = db.meterHistory ++ [r]) ∨
      ((ingest db p).1.meterHistory = db.meterHistory ∧
       ∃ r, (ingest db p).1.vehicleHistory = db.vehicleHistory ++ [r]) := by
    by_cases hpm : p.meterId.isSome
    · cases hdto : toMeterDto p with
      | none => left; simp [ingest, hpm, hdto]
      | some dto =>
          cases hts : parseTimestamp dto.timestamp with
          | none => left; simp [ingest, ingestMeter, hpm, hdto, hts]
          | some ts => right; left; simp [ingest, ingestMeter, hpm, hdto, hts]
    · by_cases hpv : p.vehicleId.isSome
      · cases hdto : toVehicleDto p with
        | none => left; simp [ingest, hpm, hpv, hdto]
        | some dto =>
            cases hts : parseTimestamp dto.timestamp with
            | none => left; simp [ingest, ingestVehicle, hpm, hpv, hdto, hts]
            | some ts => right; right; simp [ingest, ingestVehicle, hpm, hpv, hdto, hts]
      · left; simp [ingest, hpm, hpv]
  obtain ⟨h1, h2, h3⟩ | ⟨h1, r, h2⟩ | ⟨h1, r, h2⟩ := key
  · exact ⟨⟨[], by simp [h1]⟩, ⟨[], by simp [h2]⟩,
      fun ack hack => absurd hack (h3 ack), rfl, rfl⟩
  · refine ⟨⟨[], by simp [h1]⟩, ⟨[r], h2⟩, fun ack _ => ?_, rfl, rfl⟩
    rw [h1, h2]
    simp [List.length_append]
    omega
  · refine ⟨⟨[r], h2⟩, ⟨[], by simp [h1]⟩, fun ack _ => ?_, rfl, rfl⟩
    rw [h1, h2]
    simp [List.length_append]
    omega

/-- Witness for C8: a successful meter ingestion into the empty database
grows the combined history row count by exactly one. -/
theorem c8_history_append_only_witness :
    (ingest DBState.empty payloadMeter).1.vehicleHistory.length
        + (ingest DBState.empty payloadMeter).1.meterHistory.length
      = DBState.empty.vehicleHistory.length + DBState.empty.meterHistory.length + 1 :=
  (c8_history_append_only DBState.empty payloadMeter "EV-1" "M-1").2.2.1
    "meter telemetry ingested" (by decide)

/-! ## Claim C9 — malformed timestamps are rejected without writes -/

/-- Claim C9: for every classified telemetry payload the handler parses
the supplied timestamp into an instant, and when the timestamp is
malformed it fails with a validation error and the returned state is the
input state — no history or current-status write occurs. -/
theorem c9_malformed_timestamp_rejected (db : DBState)
    (vdata : VehicleTelemetryDto) (mdata : MeterTelemetryDto)
    (hv : parseTimestamp vdata.timestamp = none)
    (hm : parseTimestamp mdata.timestamp = none) :
    ingestVehicle db vdata
      = (db, .error (.validationError "timestamp must be a valid ISO 8601 date string")) ∧
    ingestMeter db mdata
      = (db, .error (.validationError "timestamp must be a valid ISO 8601 date string")) := by
  constructor
  · simp [ingestVehicle, hv]
  · simp [ingestMeter, hm]

/-- Witness for C9 at two malformed timestamps: a non-date string and an
out-of-range month. -/
theorem c9_malformed_timestamp_rejected_witness :
    ingestVehicle DBState.empty ⟨"EV-1", 50, 10, 25, "not-a-date"⟩
      = (DBState.empty,
         .error (.validationError "timestamp must be a valid ISO 8601 date string")) ∧
    ingestMeter DBState.empty ⟨"M-1", 12, 230, "2026-13-01T00:00:00Z"⟩
      = (DBState.empty,
         .error (.validationError "timestamp must be a valid ISO 8601 date string")) :=
  c9_malformed_timestamp_rejected DBState.empty ⟨"EV-1", 50, 10, 25, "not-a-date"⟩
    ⟨"M-1", 12, 230, "2026-13-01T00:00:00Z"⟩ (by decide) (by decide)

end EnergyIngestion
